import Mathlib

/-!
Shallow embedding of the telegraf nginx input plugin
(`plugins/inputs/nginx/nginx.go`) together with proofs about its
behaviour.  Byte streams are modelled as `List Char` (every delimiter the
code uses is ASCII, so the char-level view is faithful), Go's `uint64`
values as `Nat` with explicit `< 2^64` bounds, and `time.Duration` as
`Int` nanoseconds.  A Go function that can return a non-nil error is
modelled with an explicit error constructor; a runtime panic (index out
of range, nil-pointer dereference) gets its own constructor, distinct
from an error return, because a panic escapes the function.
-/

/-- Go `unicode.IsSpace`: the Unicode White_Space property. -/
def goIsSpace (c : Char) : Bool :=
  (c.toNat = 9) || (c.toNat = 10) || (c.toNat = 11) || (c.toNat = 12) ||
  (c.toNat = 13) || (c.toNat = 32) || (c.toNat = 0x85) || (c.toNat = 0xA0) ||
  (c.toNat = 0x1680) || (0x2000 ≤ c.toNat && c.toNat ≤ 0x200A) ||
  (c.toNat = 0x2028) || (c.toNat = 0x2029) || (c.toNat = 0x202F) ||
  (c.toNat = 0x205F) || (c.toNat = 0x3000)

/-- Left half of Go `strings.TrimSpace`. -/
def trimLeft (s : List Char) : List Char :=
  s.dropWhile goIsSpace

/-- Right half of Go `strings.TrimSpace`. -/
def trimRight (s : List Char) : List Char :=
  (s.reverse.dropWhile goIsSpace).reverse

/-- Go `strings.TrimSpace`: trim leading and trailing white space. -/
def trimSpace (s : List Char) : List Char :=
  trimRight (trimLeft s)

/-- Worker for `goFields`; `acc` holds the current token reversed. -/
def fieldsAux : List Char → List Char → List (List Char)
  | [], acc => if acc = [] then [] else [acc.reverse]
  | c :: rest, acc =>
    if goIsSpace c then
      if acc = [] then fieldsAux rest [] else acc.reverse :: fieldsAux rest []
    else fieldsAux rest (c :: acc)

/-- Go `strings.Fields`: split around runs of white space. -/
def goFields (s : List Char) : List (List Char) :=
  fieldsAux s []

/-- Result of `bufio.Reader.ReadString`: the bytes read (delimiter
included when found), the remaining stream, and whether the delimiter
was found (`found = false` models the `io.EOF` error return). -/
structure ReadRes where
  data : List Char
  rest : List Char
  found : Bool
deriving DecidableEq, Repr

/-- `bufio.Reader.ReadString(delim)`: read up to and including the first
occurrence of `delim`; on end of stream without a delimiter, return what
was read together with an EOF error (`found = false`). -/
def readString (delim : Char) : List Char → ReadRes
  | [] => ⟨[], [], false⟩
  | c :: cs =>
    if c = delim then ⟨[c], cs, true⟩
    else
      let r := readString delim cs
      ⟨c :: r.data, r.rest, r.found⟩

/-- ASCII decimal digit test, as in `strconv`. -/
def isDigitChar (c : Char) : Bool :=
  (48 ≤ c.toNat) && (c.toNat ≤ 57)

/-- Go `strconv.ParseUint(s, 10, 64)`: succeeds exactly on a non-empty
all-digit string whose value fits in 64 bits; a sign, any other
character, or overflow is an error (`none`). -/
def parseUint (s : List Char) : Option Nat :=
  if s = [] then none
  else if s.all isDigitChar then
    let v := s.foldl (fun a c => a * 10 + (c.toNat - 48)) 0
    if v < 2 ^ 64 then some v else none
  else none

/-- First element of Go `strings.Split(s, sep)` for a one-char
separator: everything before the first occurrence of `sep`. -/
def splitFirst (sep : Char) (s : List Char) : List Char :=
  s.takeWhile (fun c => c != sep)

/-- Worker for `firstIdx`. -/
def firstIdxAux (c : Char) : List Char → Nat → Option Nat
  | [], _ => none
  | x :: xs, i => if x = c then some i else firstIdxAux c xs (i + 1)

/-- Index of the first occurrence of `c`, as Go `strings.IndexByte`. -/
def firstIdx (c : Char) (s : List Char) : Option Nat :=
  firstIdxAux c s 0

/-- Index of the last occurrence of `c`, as the `last` helper in Go
`net.SplitHostPort`. -/
def lastIdx (c : Char) (s : List Char) : Option Nat :=
  match firstIdx c s.reverse with
  | none => none
  | some j => some (s.length - 1 - j)

/-- Go `net.SplitHostPort`: split `host:port` (with optional
`[host]:port` bracketing); `none` models every error return (missing
port, too many colons, stray brackets). -/
def splitHostPort (hp : List Char) : Option (List Char × List Char) :=
  match lastIdx ':' hp with
  | none => none
  | some i =>
    if hp.head? = some '[' then
      match firstIdx ']' hp with
      | none => none
      | some e =>
        if e + 1 = hp.length then none
        else if e + 1 ≠ i then none
        else if (hp.drop 1).contains '[' then none
        else if (hp.drop (e + 1)).contains ']' then none
        else some ((hp.take e).drop 1, hp.drop (i + 1))
    else
      if (hp.take i).contains ':' then none
      else if hp.contains '[' then none
      else if hp.contains ']' then none
      else some (hp.take i, hp.drop (i + 1))

/-- The parts of a parsed `url.URL` the plugin reads: `Scheme` and
`Host` (the authority, host plus optional port). -/
structure GoURL where
  scheme : String
  host : String
deriving DecidableEq, Repr

/-- `getTags` from `nginx.go`: split host and port off the authority;
on a split error fall back to the whole authority and the scheme's
default port (80 for http, 443 for https, empty otherwise). -/
def getTags (addr : GoURL) : List (String × String) :=
  match splitHostPort addr.host.toList with
  | some (h, p) => [("server", String.mk h), ("port", String.mk p)]
  | none =>
    let port : String :=
      if addr.scheme = "http" then "80"
      else if addr.scheme = "https" then "443"
      else ""
    [("server", addr.host), ("port", port)]

/-- One `acc.AddFields` call: measurement name, field set (in the order
of the Go map literal), tag set. -/
structure Metric where
  name : String
  fields : List (String × Nat)
  tags : List (String × String)
deriving DecidableEq, Repr

/-- How `gatherStubStatusUrl` terminates: a normal return of nil
(`ok`), a non-nil error return (`errRet`), or an index-out-of-range
runtime panic escaping the function (`oob`). -/
inductive StubResult
  | ok
  | errRet
  | oob
deriving DecidableEq, Repr

/-- `gatherStubStatusUrl` from `nginx.go`: parse the stub-status body
and, on success only, add the single 7-field record.  The second
component lists the `acc.AddFields` calls made.  `data.get? k = none`
models Go's `data[k]` panicking when the slice is too short. -/
def gatherStubStatusUrl (body : List Char) (tags : List (String × String)) :
    StubResult × List Metric :=
  match readString ':' body with
  | ⟨_, _, false⟩ => (.errRet, [])
  | ⟨_, rest0, true⟩ =>
  match readString '\n' rest0 with
  | ⟨_, _, false⟩ => (.errRet, [])
  | ⟨line1, rest1, true⟩ =>
  match parseUint (trimSpace line1) with
  | none => (.errRet, [])
  | some active =>
  match readString '\n' rest1 with
  | ⟨_, _, false⟩ => (.errRet, [])
  | ⟨_, rest2, true⟩ =>
  match readString '\n' rest2 with
  | ⟨_, _, false⟩ => (.errRet, [])
  | ⟨line2, rest3, true⟩ =>
  match (goFields line2).get? 0 with
  | none => (.oob, [])
  | some t0 =>
  match parseUint t0 with
  | none => (.errRet, [])
  | some accepts =>
  match (goFields line2).get? 1 with
  | none => (.oob, [])
  | some t1 =>
  match parseUint t1 with
  | none => (.errRet, [])
  | some handled =>
  match (goFields line2).get? 2 with
  | none => (.oob, [])
  | some t2 =>
  match parseUint t2 with
  | none => (.errRet, [])
  | some requests =>
  match readString '\n' rest3 with
  | ⟨_, _, false⟩ => (.errRet, [])
  | ⟨line3, _, true⟩ =>
  match (goFields line3).get? 1 with
  | none => (.oob, [])
  | some u1 =>
  match parseUint u1 with
  | none => (.errRet, [])
  | some reading =>
  match (goFields line3).get? 3 with
  | none => (.oob, [])
  | some u3 =>
  match parseUint u3 with
  | none => (.errRet, [])
  | some writing =>
  match (goFields line3).get? 5 with
  | none => (.oob, [])
  | some u5 =>
  match parseUint u5 with
  | none => (.errRet, [])
  | some waiting =>
    (.ok, [⟨"nginx",
      [("active", active), ("accepts", accepts), ("handled", handled),
       ("requests", requests), ("reading", reading), ("writing", writing),
       ("waiting", waiting)], tags⟩])

/-- The second data line (accepts/handled/requests) as the parser would
read it: the result of the fourth `ReadString` in the chain. -/
def secondDataLine (body : List Char) : List Char :=
  (readString '\n'
    (readString '\n'
      (readString '\n'
        (readString ':' body).rest).rest).rest).data

/-- The parts of an `http.Response` the plugin reads: `StatusCode`,
`Status` (the textual status line), the `Content-Type` header value,
and the body. -/
structure HttpResponse where
  statusCode : Nat
  status : String
  contentType : String
  body : List Char
deriving DecidableEq, Repr

/-- How `gatherUrl` handles one response: fail on the status check
(carrying the address and the textual status, as the Go error does),
run the plain-text parser, hand off to the JSON status handler (defined
in another file of the package, out of scope here), or fail on an
unexpected content type (carrying the address and the extracted type). -/
inductive DispatchResult
  | statusErr (addr : GoURL) (status : String)
  | stub (out : StubResult × List Metric)
  | jsonDispatch (tags : List (String × String))
  | ctErr (addr : GoURL) (ct : String)
deriving DecidableEq, Repr

/-- `gatherUrl` from `nginx.go`, from the point where a response is in
hand: reject any status code other than 200 (`http.StatusOK`), then
dispatch on the primary content-type token (the part before `;`). -/
def gatherUrl (addr : GoURL) (resp : HttpResponse) : DispatchResult :=
  if resp.statusCode ≠ 200 then .statusErr addr resp.status
  else
    let ct := String.mk (splitFirst ';' resp.contentType.toList)
    if ct = "text/plain" then
      .stub (gatherStubStatusUrl resp.body (getTags addr))
    else if ct = "application/json" then
      .jsonDispatch (getTags addr)
    else
      .ctErr addr ct

/-- The `Nginx` struct's configuration fields.  `responseTimeout` is an
`internal.Duration` in nanoseconds (`time.Duration` is a signed 64-bit
count of nanoseconds, so `Int`). -/
structure NginxConfig where
  urls : List String
  sslCA : String
  sslCert : String
  sslKey : String
  insecureSkipVerify : Bool
  responseTimeout : Int
deriving DecidableEq, Repr

/-- The part of the built `http.Client` the spec talks about: its
effective timeout in nanoseconds. -/
structure HttpClient where
  timeout : Int
deriving DecidableEq, Repr

/-- `time.Second` in nanoseconds. -/
def nsPerSecond : Int := 1000000000

/-- `createHttpClient` from `nginx.go`.  `getTLS` abstracts the external
`internal.GetTLSConfig` collaborator.  The receiver's
`ResponseTimeout` field is mutated when below one second, so the
(possibly updated) configuration is returned alongside the client. -/
def createHttpClient
    (getTLS : String → String → String → Bool → Except String Unit)
    (n : NginxConfig) : Except String (HttpClient × NginxConfig) :=
  match getTLS n.sslCert n.sslKey n.sslCA n.insecureSkipVerify with
  | .error e => .error e
  | .ok _ =>
    let n2 := if n.responseTimeout < nsPerSecond
              then { n with responseTimeout := 5 * nsPerSecond } else n
    .ok (⟨n2.responseTimeout⟩, n2)

/-- Abstraction of one whole fetch-and-process operation
(`n.gatherUrl(addr, acc)` on a non-nil address): either it succeeded and
added one record, or it returned a non-nil error. -/
inductive FetchOut
  | success (m : Metric)
  | failure (e : String)

/-- Accumulator and scheduling events observable during `Gather`:
`errorAdded u` is the `acc.AddError` call for an address that failed URL
parsing, `fetchErrorAdded`/`fieldsAdded` are the calls made on behalf of
a dispatched fetch, and `dispatched addr` records that a goroutine was
launched with that (possibly nil) parsed address. -/
inductive Event
  | errorAdded (u : String)
  | fetchErrorAdded (e : String)
  | fieldsAdded (m : Metric)
  | dispatched (addr : Option GoURL)
deriving DecidableEq, Repr

/-- How `Gather` terminates: a non-nil error return, a nil return, or a
process-killing runtime panic (a goroutine dereferencing a nil URL). -/
inductive GatherRet
  | err (e : String)
  | ok
  | crashed
deriving DecidableEq, Repr

/-- The `for _, u := range n.Urls` loop of `Gather`, with the fan-out
sequentialised: each spawned goroutine's effects are placed at its
dispatch point (one legal interleaving of the fork-join).  When URL
parsing fails the code records the error but still launches the
goroutine with the nil address; that goroutine calls `addr.String()` on
a nil pointer, an unrecovered panic that kills the process, so no later
work is modelled after it. -/
def gatherLoop (parse : String → Option GoURL) (fetch : GoURL → FetchOut) :
    List String → GatherRet × List Event
  | [] => (.ok, [])
  | u :: rest =>
    match parse u with
    | none =>
      (.crashed, [.errorAdded u, .dispatched none])
    | some a =>
      let ev :=
        match fetch a with
        | .success m => [Event.dispatched (some a), Event.fieldsAdded m]
        | .failure e => [Event.dispatched (some a), Event.fetchErrorAdded e]
      let r := gatherLoop parse fetch rest
      (r.1, ev ++ r.2)

/-- The `Nginx` collector instance: configuration plus the cached
client field (`nil` before first construction). -/
structure NginxState where
  cfg : NginxConfig
  client : Option HttpClient

/-- `Gather` from `nginx.go`: build and cache the client when the field
is nil (a construction error aborts the cycle), then run the polling
loop and return.  Result: return value, accumulator/scheduling events,
and the collector state afterwards. -/
def Gather (getTLS : String → String → String → Bool → Except String Unit)
    (parse : String → Option GoURL) (fetch : GoURL → FetchOut)
    (n : NginxState) : GatherRet × List Event × NginxState :=
  match n.client with
  | some _ =>
    let r := gatherLoop parse fetch n.cfg.urls
    (r.1, r.2, n)
  | none =>
    match createHttpClient getTLS n.cfg with
    | .error e => (.err e, [], n)
    | .ok (c, cfg2) =>
      let n2 : NginxState := ⟨cfg2, some c⟩
      let r := gatherLoop parse fetch n2.cfg.urls
      (r.1, r.2, n2)

/-- The well-formed stub-status body from the spec's test vector. -/
def bodyWf : String :=
  "Active connections: 3\nserver accepts handled requests\n 4 4 5\nReading: 1 Writing: 2 Waiting: 0\n"

/-- The same body truncated: no newline after the third data line. -/
def bodyNoFinalNl : String :=
  "Active connections: 3\nserver accepts handled requests\n 4 4 5\nReading: 1 Writing: 2 Waiting: 0"

/-- A body whose second data line is empty (zero tokens). -/
def bodyEmptySecond : String :=
  "Active connections: 3\nserver accepts handled requests\n\nReading: 1 Writing: 2 Waiting: 0\n"

/-- A body whose second data line has only two tokens. -/
def bodyTwoTokens : String :=
  "Active connections: 3\nserver accepts handled requests\n 4 4\nReading: 1 Writing: 2 Waiting: 0\n"

/-- Example tag set used in concrete instantiations. -/
def tagsEx : List (String × String) :=
  [("server", "localhost"), ("port", "80")]

/-- A URL-parse function that fails on `"%zz"` (Go's `url.Parse`
rejects the invalid percent escape) and succeeds on the good address. -/
def parseEx : String → Option GoURL :=
  fun u => if u = "http://good/status" then some ⟨"http", "good"⟩ else none

/-- A record the good endpoint would produce. -/
def metricGood : Metric :=
  ⟨"nginx", [("active", 1), ("accepts", 2), ("handled", 2), ("requests", 3),
             ("reading", 0), ("writing", 1), ("waiting", 0)],
   [("server", "good"), ("port", "80")]⟩

/-- A fetch in which every (non-nil) endpoint succeeds. -/
def fetchEx : GoURL → FetchOut :=
  fun _ => .success metricGood

/-- A TLS loader that always succeeds. -/
def getTLSok : String → String → String → Bool → Except String Unit :=
  fun _ _ _ _ => .ok ()

/-- A configuration requesting a 200 ms response timeout. -/
def cfg200ms : NginxConfig :=
  ⟨["http://good/status"], "", "", "", false, 200000000⟩

/-- `cfg200ms` after `createHttpClient` floors the timeout to 5 s. -/
def cfg200msAfter : NginxConfig :=
  ⟨["http://good/status"], "", "", "", false, 5000000000⟩

/-- A configuration requesting a 10 s response timeout. -/
def cfg10s : NginxConfig :=
  ⟨["http://good/status"], "", "", "", false, 10000000000⟩

/-- A 204 No Content response (2xx but not 200). -/
def resp204 : HttpResponse :=
  ⟨204, "204 No Content", "text/plain", []⟩

/-- A 200 response with a parameterised plain-text content type. -/
def resp200 : HttpResponse :=
  ⟨200, "200 OK", "text/plain; charset=utf-8", bodyWf.toList⟩

/-- An example parsed address. -/
def urlEx : GoURL := ⟨"http", "localhost"⟩

/-- A configuration with one bad address (rejected by `url.Parse`) and
one good one. -/
def cfgBug : NginxConfig :=
  ⟨["%zz", "http://good/status"], "", "", "", false, 5000000000⟩

/-- A collector state with the client already cached. -/
def stateBug : NginxState := ⟨cfgBug, some ⟨5000000000⟩⟩

/-- One collection cycle over `cfgBug` with the client cached. -/
def gatherBugOut : GatherRet × List Event × NginxState :=
  Gather getTLSok parseEx fetchEx stateBug

theorem readString_found {c : Char} {l r : List Char} (h : c ∉ l) :
    readString c (l ++ c :: r) = ⟨l ++ [c], r, true⟩ := by
  induction l with
  | nil => simp [readString]
  | cons x xs ih =>
    have hx : x ≠ c := fun e => h (by simp [e])
    have htl : c ∉ xs := fun m => h (by simp [m])
    simp [readString, hx, ih htl]

theorem readString_eof {c : Char} {l : List Char} (h : c ∉ l) :
    readString c l = ⟨l, [], false⟩ := by
  induction l with
  | nil => simp [readString]
  | cons x xs ih =>
    have hx : x ≠ c := fun e => h (by simp [e])
    have htl : c ∉ xs := fun m => h (by simp [m])
    simp [readString, hx, ih htl]

theorem trimRight_append_space {c : Char} (hc : goIsSpace c = true)
    (l : List Char) : trimRight (l ++ [c]) = trimRight l := by
  simp [trimRight, List.dropWhile, hc]

theorem trimSpace_append_space {c : Char} (hc : goIsSpace c = true)
    (l : List Char) : trimSpace (l ++ [c]) = trimSpace l := by
  induction l with
  | nil => simp [trimSpace, trimLeft, List.dropWhile, hc, trimRight]
  | cons x xs ih =>
    by_cases hx : goIsSpace x
    · simpa [trimSpace, trimLeft, List.dropWhile, hx] using ih
    · simp only [trimSpace, trimLeft, List.cons_append, List.dropWhile, hx]
      simpa using trimRight_append_space hc (x :: xs)

theorem fieldsAux_append_space {c : Char} (hc : goIsSpace c = true)
    (l : List Char) : ∀ acc, fieldsAux (l ++ [c]) acc = fieldsAux l acc := by
  induction l with
  | nil =>
    intro acc
    by_cases ha : acc = [] <;> simp [fieldsAux, hc, ha]
  | cons x xs ih =>
    intro acc
    by_cases hx : goIsSpace x
    · by_cases ha : acc = [] <;> simp [fieldsAux, hx, ha, ih]
    · simp [fieldsAux, hx, ih]

theorem goFields_append_space {c : Char} (hc : goIsSpace c = true)
    (l : List Char) : goFields (l ++ [c]) = goFields l :=
  fieldsAux_append_space hc l []

theorem trimSpace_newline (l : List Char) :
    trimSpace (l ++ ['\n']) = trimSpace l :=
  trimSpace_append_space (by decide) l

theorem goFields_newline (l : List Char) :
    goFields (l ++ ['\n']) = goFields l :=
  goFields_append_space (by decide) l

/-- C2: for every body matching the three-line stub-status grammar
(label up to the first colon, a line whose trimmed remainder is the
`active` number, a header line, a three-token line giving `accepts`,
`handled`, `requests`, and a six-token line whose tokens at positions
1, 3, 5 give `reading`, `writing`, `waiting`), `gatherStubStatusUrl`
succeeds and emits exactly the seven fields with the values taken from
their grammar positions. -/
theorem gatherStubStatusUrl_wellFormed
    (pre a1 b2 c3 d4 rest t1 t2 t3 l0 t5 l1 t6 l2 t7 : List Char)
    (tags : List (String × String)) (n1 n2 n3 n4 n5 n6 n7 : Nat)
    (hpre : ':' ∉ pre)
    (ha : '\n' ∉ a1) (h1 : parseUint (trimSpace a1) = some n1)
    (hb : '\n' ∉ b2)
    (hc : '\n' ∉ c3) (hfc : goFields c3 = [t1, t2, t3])
    (h2 : parseUint t1 = some n2) (h3 : parseUint t2 = some n3)
    (h4 : parseUint t3 = some n4)
    (hd : '\n' ∉ d4) (hfd : goFields d4 = [l0, t5, l1, t6, l2, t7])
    (h5 : parseUint t5 = some n5) (h6 : parseUint t6 = some n6)
    (h7 : parseUint t7 = some n7) :
    gatherStubStatusUrl
      (pre ++ ':' :: (a1 ++ '\n' :: (b2 ++ '\n' :: (c3 ++ '\n' :: (d4 ++ '\n' :: rest)))))
      tags
    = (.ok, [⟨"nginx",
        [("active", n1), ("accepts", n2), ("handled", n3), ("requests", n4),
         ("reading", n5), ("writing", n6), ("waiting", n7)], tags⟩]) := by
  simp [gatherStubStatusUrl, readString_found hpre, readString_found ha,
        readString_found hb, readString_found hc, readString_found hd,
        trimSpace_newline, goFields_newline, h1, hfc, h2, h3, h4, hfd,
        h5, h6, h7]

/-- C2 witness: the spec's test vector parses to
active=3, accepts=4, handled=4, requests=5, reading=1, writing=2,
waiting=0, emitted as one record. -/
theorem gatherStubStatusUrl_wellFormed_witness :
    gatherStubStatusUrl bodyWf.toList tagsEx
      = (.ok, [⟨"nginx",
          [("active", 3), ("accepts", 4), ("handled", 4), ("requests", 5),
           ("reading", 1), ("writing", 2), ("waiting", 0)], tagsEx⟩]) := by
  have h := gatherStubStatusUrl_wellFormed
    "Active connections".toList " 3".toList
    "server accepts handled requests".toList " 4 4 5".toList
    "Reading: 1 Writing: 2 Waiting: 0".toList []
    "4".toList "4".toList "5".toList
    "Reading:".toList "1".toList "Writing:".toList "2".toList
    "Waiting:".toList "0".toList tagsEx 3 4 4 5 1 2 0
    (by decide) (by decide) (by decide) (by decide) (by decide) (by decide)
    (by decide) (by decide) (by decide) (by decide) (by decide) (by decide)
    (by decide) (by decide)
  have e : bodyWf.toList =
      "Active connections".toList ++ ':' :: (" 3".toList ++ '\n' ::
        ("server accepts handled requests".toList ++ '\n' ::
          (" 4 4 5".toList ++ '\n' ::
            ("Reading: 1 Writing: 2 Waiting: 0".toList ++ '\n' :: [])))) := by
    decide
  rw [e]
  exact h

/-- C10: every required line, the third data line included, must end
with a newline: a body that reaches end of stream right after the last
token of the Reading/Writing/Waiting line, with all seven numeric
values present, makes `gatherStubStatusUrl` fail with an error return
and no record. -/
theorem gatherStubStatusUrl_final_newline
    (pre a1 b2 c3 d4 t1 t2 t3 l0 t5 l1 t6 l2 t7 : List Char)
    (tags : List (String × String)) (n1 n2 n3 n4 n5 n6 n7 : Nat)
    (hpre : ':' ∉ pre)
    (ha : '\n' ∉ a1) (h1 : parseUint (trimSpace a1) = some n1)
    (hb : '\n' ∉ b2)
    (hc : '\n' ∉ c3) (hfc : goFields c3 = [t1, t2, t3])
    (h2 : parseUint t1 = some n2) (h3 : parseUint t2 = some n3)
    (h4 : parseUint t3 = some n4)
    (hd : '\n' ∉ d4) (_hfd : goFields d4 = [l0, t5, l1, t6, l2, t7])
    (_h5 : parseUint t5 = some n5) (_h6 : parseUint t6 = some n6)
    (_h7 : parseUint t7 = some n7) :
    gatherStubStatusUrl
      (pre ++ ':' :: (a1 ++ '\n' :: (b2 ++ '\n' :: (c3 ++ '\n' :: d4))))
      tags
    = (.errRet, []) := by
  simp [gatherStubStatusUrl, readString_found hpre, readString_found ha,
        readString_found hb, readString_found hc, readString_eof hd,
        trimSpace_newline, goFields_newline, h1, hfc, h2, h3, h4]

/-- C10 witness: the spec's test vector without its final newline is
rejected with an error return and no record. -/
theorem gatherStubStatusUrl_final_newline_witness :
    gatherStubStatusUrl bodyNoFinalNl.toList tagsEx = (.errRet, []) := by
  have h := gatherStubStatusUrl_final_newline
    "Active connections".toList " 3".toList
    "server accepts handled requests".toList " 4 4 5".toList
    "Reading: 1 Writing: 2 Waiting: 0".toList
    "4".toList "4".toList "5".toList
    "Reading:".toList "1".toList "Writing:".toList "2".toList
    "Waiting:".toList "0".toList tagsEx 3 4 4 5 1 2 0
    (by decide) (by decide) (by decide) (by decide) (by decide) (by decide)
    (by decide) (by decide) (by decide) (by decide) (by decide) (by decide)
    (by decide) (by decide)
  have e : bodyNoFinalNl.toList =
      "Active connections".toList ++ ':' :: (" 3".toList ++ '\n' ::
        ("server accepts handled requests".toList ++ '\n' ::
          (" 4 4 5".toList ++ '\n' ::
            "Reading: 1 Writing: 2 Waiting: 0".toList))) := by
    decide
  rw [e]
  exact h

/-- Shape lemma: every run of the parser either adds no record, or
returns nil having added exactly one 7-field record. -/
theorem gatherStubStatusUrl_shape (body : List Char)
    (tags : List (String × String)) :
    gatherStubStatusUrl body tags = (.errRet, []) ∨
    gatherStubStatusUrl body tags = (.oob, []) ∨
    ∃ n1 n2 n3 n4 n5 n6 n7, gatherStubStatusUrl body tags
      = (.ok, [⟨"nginx",
          [("active", n1), ("accepts", n2), ("handled", n3), ("requests", n4),
           ("reading", n5), ("writing", n6), ("waiting", n7)], tags⟩]) := by
  unfold gatherStubStatusUrl
  repeat' split
  all_goals first
    | exact Or.inl rfl
    | exact Or.inr (Or.inl rfl)
    | exact Or.inr (Or.inr ⟨_, _, _, _, _, _, _, rfl⟩)

/-- C7: the plain-text parse is all-or-nothing: `AddFields` is called
exactly once, with all seven fields, when the parse returns nil, and is
never called on any failure path. -/
theorem gatherStubStatusUrl_all_or_nothing (body : List Char)
    (tags : List (String × String)) :
    ((gatherStubStatusUrl body tags).1 = .ok →
      ∃ n1 n2 n3 n4 n5 n6 n7, (gatherStubStatusUrl body tags).2
        = [⟨"nginx",
            [("active", n1), ("accepts", n2), ("handled", n3),
             ("requests", n4), ("reading", n5), ("writing", n6),
             ("waiting", n7)], tags⟩]) ∧
    ((gatherStubStatusUrl body tags).1 ≠ .ok →
      (gatherStubStatusUrl body tags).2 = []) := by
  rcases gatherStubStatusUrl_shape body tags with h | h | ⟨a, b, c, d, e, f, g, h⟩
  · rw [h]; exact ⟨fun hk => by simp at hk, fun _ => rfl⟩
  · rw [h]; exact ⟨fun hk => by simp at hk, fun _ => rfl⟩
  · rw [h]; exact ⟨fun _ => ⟨a, b, c, d, e, f, g, rfl⟩, fun hk => by simp at hk⟩

/-- C7 witness: on the valid test body the success branch yields the
one full record; on the truncated body the failure branch yields no
record. -/
theorem gatherStubStatusUrl_all_or_nothing_witness :
    (∃ n1 n2 n3 n4 n5 n6 n7, (gatherStubStatusUrl bodyWf.toList tagsEx).2
        = [⟨"nginx",
            [("active", n1), ("accepts", n2), ("handled", n3),
             ("requests", n4), ("reading", n5), ("writing", n6),
             ("waiting", n7)], tagsEx⟩]) ∧
    (gatherStubStatusUrl bodyNoFinalNl.toList tagsEx).2 = [] :=
  ⟨(gatherStubStatusUrl_all_or_nothing bodyWf.toList tagsEx).1 (by decide),
   (gatherStubStatusUrl_all_or_nothing bodyNoFinalNl.toList tagsEx).2 (by decide)⟩

/-- C4 counterexample: a second data line with fewer than 3 tokens does
not make the parser fail by an error return: on a two-token line the
`data[2]` access is an index-out-of-range runtime panic that escapes
the function. -/
theorem gatherStubStatusUrl_short_line_counterexample :
    (goFields (secondDataLine bodyTwoTokens.toList)).length < 3 ∧
    (gatherStubStatusUrl bodyTwoTokens.toList tagsEx).1 = .oob ∧
    (gatherStubStatusUrl bodyTwoTokens.toList tagsEx).1 ≠ .errRet := by
  decide

/-- C4 amended: when the second data line splits into fewer than 3
tokens the parse never succeeds and emits no record, terminating either
by an earlier error return or by the index-out-of-range runtime panic
(which escapes the function rather than being an error return). -/
theorem gatherStubStatusUrl_short_line (body : List Char)
    (tags : List (String × String))
    (h : (goFields (secondDataLine body)).length < 3) :
    gatherStubStatusUrl body tags = (.errRet, []) ∨
    gatherStubStatusUrl body tags = (.oob, []) := by
  have h2 : (goFields (secondDataLine body)).get? 2 = none :=
    List.get?_eq_none.mpr (by omega)
  unfold secondDataLine at h2
  unfold gatherStubStatusUrl
  repeat' split
  all_goals simp_all [List.getElem?_eq_some]

/-- C4 amended witness: a body whose second data line is empty. -/
theorem gatherStubStatusUrl_short_line_witness :
    gatherStubStatusUrl bodyEmptySecond.toList tagsEx = (.errRet, []) ∨
    gatherStubStatusUrl bodyEmptySecond.toList tagsEx = (.oob, []) :=
  gatherStubStatusUrl_short_line bodyEmptySecond.toList tagsEx (by decide)

/-- C3 counterexample: a 204 No Content response is in the 2xx success
class, yet `gatherUrl` fails its status check (the code compares
against 200 exactly), so no content-type dispatch happens. -/
theorem gatherUrl_nonOk_2xx_counterexample :
    200 ≤ resp204.statusCode ∧ resp204.statusCode < 300 ∧
    gatherUrl urlEx resp204 = .statusErr urlEx "204 No Content" := by
  decide

/-- C3 amended: any response whose status code differs from 200 (other
2xx codes included) is a hard failure carrying the address and the
textual status, with no content-type dispatch; exactly status 200
passes the check and processing proceeds to extracting the primary
content-type token. -/
theorem gatherUrl_status_gate (addr : GoURL) (resp : HttpResponse) :
    (resp.statusCode ≠ 200 →
      gatherUrl addr resp = .statusErr addr resp.status) ∧
    (resp.statusCode = 200 →
      ∀ a s, gatherUrl addr resp ≠ .statusErr a s) := by
  constructor
  · intro h
    simp [gatherUrl, h]
  · intro h a s
    unfold gatherUrl
    rw [if_neg (by simp [h])]
    dsimp only
    split
    · simp
    · split <;> simp

/-- C3 amended witness: a 500 response fails with address and status;
a 200 response passes the status check. -/
theorem gatherUrl_status_gate_witness :
    (gatherUrl urlEx ⟨500, "500 Internal Server Error", "text/plain", []⟩
      = .statusErr urlEx "500 Internal Server Error") ∧
    (∀ a s, gatherUrl urlEx resp200 ≠ .statusErr a s) :=
  ⟨(gatherUrl_status_gate urlEx ⟨500, "500 Internal Server Error", "text/plain", []⟩).1
      (by decide),
   (gatherUrl_status_gate urlEx resp200).2 (by decide)⟩

/-- C5: whenever `createHttpClient` succeeds, the built client's
timeout is five seconds when the requested timeout is strictly below
one second (zero and negative values included), and is the requested
value when it is at least one second. -/
theorem createHttpClient_timeout
    (getTLS : String → String → String → Bool → Except String Unit)
    (n : NginxConfig) (cl : HttpClient) (cfg2 : NginxConfig)
    (h : createHttpClient getTLS n = .ok (cl, cfg2)) :
    (n.responseTimeout < nsPerSecond → cl.timeout = 5 * nsPerSecond) ∧
    (nsPerSecond ≤ n.responseTimeout → cl.timeout = n.responseTimeout) := by
  unfold createHttpClient at h
  rcases hg : getTLS n.sslCert n.sslKey n.sslCA n.insecureSkipVerify with e | u
  · rw [hg] at h; exact absurd h (by simp)
  · rw [hg] at h
    simp only [Except.ok.injEq, Prod.mk.injEq] at h
    obtain ⟨hcl, -⟩ := h
    subst hcl
    constructor
    · intro hlt
      simp [hlt]
    · intro hge
      simp [show ¬ n.responseTimeout < nsPerSecond by omega]

/-- C5 witness: requesting 200 ms yields an effective timeout of 5 s;
requesting 10 s yields 10 s unchanged. -/
theorem createHttpClient_timeout_witness :
    (cfg200ms.responseTimeout < nsPerSecond ∧
      (⟨5000000000⟩ : HttpClient).timeout = 5 * nsPerSecond) ∧
    (nsPerSecond ≤ cfg10s.responseTimeout ∧
      (⟨10000000000⟩ : HttpClient).timeout = cfg10s.responseTimeout) :=
  ⟨⟨by decide,
    (createHttpClient_timeout getTLSok cfg200ms ⟨5000000000⟩ cfg200msAfter
      rfl).1 (by decide)⟩,
   ⟨by decide,
    (createHttpClient_timeout getTLSok cfg10s ⟨10000000000⟩ cfg10s
      rfl).2 (by decide)⟩⟩

/-- C6: `getTags` always returns exactly the two-entry map with keys
`server` and `port`: the split host and port when the authority splits
as `host:port`, and otherwise the whole authority as `server` with the
scheme-default port (80 for http, 443 for https, empty for any other
scheme); in particular on the three example inputs. -/
theorem getTags_spec (addr : GoURL) :
    ((getTags addr).map Prod.fst = ["server", "port"]) ∧
    (match splitHostPort addr.host.toList with
     | some (h, p) =>
        (getTags addr).lookup "server" = some (String.mk h) ∧
        (getTags addr).lookup "port" = some (String.mk p)
     | none =>
        (getTags addr).lookup "server" = some addr.host ∧
        (getTags addr).lookup "port" = some
          (if addr.scheme = "http" then "80"
           else if addr.scheme = "https" then "443" else "")) ∧
    getTags ⟨"http", "localhost"⟩ = [("server", "localhost"), ("port", "80")] ∧
    getTags ⟨"https", "example.com:9443"⟩
      = [("server", "example.com"), ("port", "9443")] ∧
    getTags ⟨"ftp", "somehost"⟩ = [("server", "somehost"), ("port", "")] := by
  refine ⟨?_, ?_, by decide, by decide, by decide⟩
  · unfold getTags
    rcases hs : splitHostPort addr.host.toList with _ | ⟨h, p⟩ <;> simp
  · unfold getTags
    rcases hs : splitHostPort addr.host.toList with _ | ⟨h, p⟩ <;>
      simp [List.lookup]

/-- C1: in the polling loop, an address whose URL parsing fails has an
error recorded for it, but contrary to the claim the fetch is still
dispatched: the goroutine is launched with the nil address, and the
loop ends in the nil-dereference crash.  Evidence at the concrete
failing input `"%zz"` (rejected by Go's `url.Parse` as an invalid
percent escape). -/
theorem gather_dispatches_on_parse_failure :
    (gatherLoop parseEx fetchEx ["%zz"]).2
      = [Event.errorAdded "%zz", Event.dispatched none] ∧
    Event.dispatched none ∈ (gatherLoop parseEx fetchEx ["%zz"]).2 ∧
    (gatherLoop parseEx fetchEx ["%zz"]).1 = .crashed := by
  decide

/-- C8: contrary to the claim, an address-parse failure is not confined
to the accumulator's error channel: with one bad address and one good
one, the cycle ends in the nil-URL crash instead of returning nil, and
the good endpoint's record is never added. -/
theorem gather_parse_failure_crashes_cycle :
    gatherBugOut.1 = .crashed ∧
    gatherBugOut.1 ≠ .ok ∧
    Event.errorAdded "%zz" ∈ gatherBugOut.2.1 ∧
    Event.fieldsAdded metricGood ∉ gatherBugOut.2.1 := by
  decide

/-- C9: once the client field is non-nil, no later `Gather` call
rebuilds or replaces it, whatever the configuration fields now hold:
the state after the cycle carries the same client. -/
theorem gather_client_cached
    (getTLS : String → String → String → Bool → Except String Unit)
    (parse : String → Option GoURL) (fetch : GoURL → FetchOut)
    (n : NginxState) (c : HttpClient) (h : n.client = some c) :
    (Gather getTLS parse fetch n).2.2.client = some c := by
  rcases n with ⟨cfg, cl⟩
  simp only at h
  subst h
  simp [Gather]

/-- C9 witness: a cached 5 s client survives a cycle run under a
configuration that meanwhile asks for 10 s. -/
theorem gather_client_cached_witness :
    (Gather getTLSok parseEx fetchEx
      ⟨cfg10s, some ⟨5000000000⟩⟩).2.2.client = some ⟨5000000000⟩ :=
  gather_client_cached getTLSok parseEx fetchEx ⟨cfg10s, some ⟨5000000000⟩⟩
    ⟨5000000000⟩ rfl
